import Mathlib

/-!
# miHttpServer: the item handlers `AddData` and `UpdateData`

A shallow embedding of `main.go`.  The two gin handlers are pure functions from
what a request carries (path parameter, body) and the store they call into, to
what the request leaves behind: the `ctx.JSON` calls made, the store calls made,
and the store's state.

Library calls of the handlers are embedded next to them:
`strconv.ParseInt(s, 10, 64)`, `json.Unmarshal` into a `map[string]interface{}`,
the single-result type assertions `x.(string)` / `x.(float64)`, which panic on a
value of another type, and the deferred `recover`.  The package `models` is not
part of the sources: the store is a parameter of the handlers.
-/

set_option autoImplicit false

namespace MiHttpServer

/-! ## Go values and errors -/

/-- A `float64` that a JSON number literal decodes to.  Such a value is finite,
so it is a rational number; the sign of a zero is not kept. -/
abbrev Float64 := ℚ

/-- The `Err` field of a `*strconv.NumError`. -/
inductive NumErr where
  | ErrSyntax
  | ErrRange
  deriving DecidableEq, Repr

/-- The error values the handlers can hold in `err`; `response.Data` receives
their `Error()` text. -/
inductive GoError where
  /-- `*json.SyntaxError`: the bytes are not a JSON text. -/
  | SyntaxError (msg : String)
  /-- `*json.UnmarshalTypeError`: JSON value `Value` does not fit Go type `GoType`. -/
  | UnmarshalTypeError (Value : String) (GoType : String)
  /-- `*strconv.NumError`. -/
  | NumError (Func : String) (Num : String) (Err : NumErr)
  /-- `*runtime.TypeAssertionError` of `x.(asserted)` on an `interface{}` whose
  dynamic type is `concrete` (`none` for a nil interface). -/
  | TypeAssertionError (concrete : Option String) (asserted : String)
  /-- An error returned by the `models` package. -/
  | StoreError (msg : String)
  deriving DecidableEq, Repr

/-- A JSON value as `encoding/json` sees it.  A number carries its literal and
the result of `strconv.ParseFloat(lit, 64)`: `none` when the literal is outside
the range of `float64`.  Object members are in document order. -/
inductive JSON where
  | null
  | bool (b : Bool)
  | number (lit : String) (val : Option Float64)
  | string (s : String)
  | array (elems : List JSON)
  | object (members : List (String × JSON))

/-- The request body, `ctx.GetRawData()`, as the JSON scanner classifies it:
bytes that are not a JSON text (with the scanner's error), or a JSON value. -/
inductive Body where
  | invalid (err : String)
  | valid (v : JSON)

/-- Modelled from the spec: `models.Item` (the `models` package is not part of
the sources); the fields are those `main.go` reads and writes. -/
structure Item where
  ItemID : Int
  Name : String
  Price : Float64
  deriving DecidableEq, Repr

/-- The value assigned to `response.Data`. -/
inductive Data where
  /-- The zero value of `interface{}`: nothing was assigned; encodes as `null`. -/
  | nil
  /-- A Go string given by the `Error()` text of an error. -/
  | errorText (e : GoError)
  /-- A Go string. -/
  | text (s : String)
  /-- The map `{key: {"item_id": ..., "name": ..., "price": ...}}`. -/
  | info (key : String) (item_id : Int) (name : String) (price : Float64)
  deriving DecidableEq, Repr

/-- `ResponseData`, the response envelope. -/
structure ResponseData where
  Code : Int
  Msg : String
  Data : Data
  deriving DecidableEq, Repr

/-- The zero value that `var response ResponseData` declares. -/
def ResponseData.zero : ResponseData := { Code := 0, Msg := "", Data := Data.nil }

def StatusOK : Nat := 200
def StatusBadRequest : Nat := 400
def StatusInternalServerError : Nat := 500

/-! ## `strconv.ParseInt(s, 10, 64)` -/

/-- `maxVal` of `ParseUint` for `bitSize = 64`. -/
def maxUint64 : Nat := 2 ^ 64 - 1

/-- The digit loop of `strconv.ParseUint(s, 10, 64)` from accumulator `n`.
Returns the value and the error kind; on a range error the value is `maxVal`.
A character outside ASCII is, as each of its bytes is, no digit and no letter. -/
def ParseUintLoop : List Char → Nat → Nat × Option NumErr
  | [], n => (n, none)
  | c :: cs, n =>
    if '0' ≤ c ∧ c ≤ '9' then
      let d := c.toNat - '0'.toNat
      if n ≥ maxUint64 / 10 + 1 then (maxUint64, some NumErr.ErrRange)
      else
        let n10 := (n * 10) % 2 ^ 64
        let n1 := (n10 + d) % 2 ^ 64
        if n1 < n10 ∨ n1 > maxUint64 then (maxUint64, some NumErr.ErrRange)
        else ParseUintLoop cs n1
    else
      -- a letter is a digit of value at least 10, which base 10 refuses;
      -- any other byte is refused by the default case
      (0, some NumErr.ErrSyntax)

/-- `strconv.ParseUint(s, 10, 64)`. -/
def ParseUint (s : List Char) : Nat × Option NumErr :=
  if s = [] then (0, some NumErr.ErrSyntax) else ParseUintLoop s 0

/-- `strconv.ParseInt(s, 10, 64)`. -/
def ParseInt (s : String) : Except GoError Int :=
  match s.toList with
  | [] => .error (GoError.NumError "ParseInt" s NumErr.ErrSyntax)
  | c :: cs =>
    let neg := c = '-'
    let rest := if c = '+' ∨ c = '-' then cs else c :: cs
    let r := ParseUint rest
    if r.2 = some NumErr.ErrSyntax then
      .error (GoError.NumError "ParseInt" s NumErr.ErrSyntax)
    else
      let un := r.1
      let cutoff := 2 ^ 63
      if ¬ neg ∧ un ≥ cutoff then .error (GoError.NumError "ParseInt" s NumErr.ErrRange)
      else if neg ∧ un > cutoff then .error (GoError.NumError "ParseInt" s NumErr.ErrRange)
      else .ok (if neg then - (un : Int) else (un : Int))

/-! ## `json.Unmarshal(data, &jsonStr)` with `jsonStr map[string]interface{}` -/

mutual
/-- The first error that decoding a JSON value into an `interface{}` saves:
a number literal that `float64` cannot hold. -/
def convertError : JSON → Option GoError
  | .null => none
  | .bool _ => none
  | .number lit val =>
    match val with
    | some _ => none
    | none => some (GoError.UnmarshalTypeError ("number " ++ lit) "float64")
  | .string _ => none
  | .array elems => convertErrorElems elems
  | .object members => convertErrorMembers members
/-- The elements of an array, in order. -/
def convertErrorElems : List JSON → Option GoError
  | [] => none
  | v :: vs =>
    match convertError v with
    | some e => some e
    | none => convertErrorElems vs
/-- The members of an object, in order. -/
def convertErrorMembers : List (String × JSON) → Option GoError
  | [] => none
  | (_, v) :: ms =>
    match convertError v with
    | some e => some e
    | none => convertErrorMembers ms
end

/-- The Go map built from the members of an object: a key that occurs again
replaces the earlier entry.  The nil map is the empty list. -/
abbrev GoMap := List (String × JSON)

/-- `json.Unmarshal(data, &jsonStr)`: the error, or the map left in `jsonStr`.
`null` is accepted and leaves `jsonStr` nil. -/
def Unmarshal : Body → Except GoError GoMap
  | .invalid err => .error (GoError.SyntaxError err)
  | .valid .null => .ok []
  | .valid (.bool _) =>
    .error (GoError.UnmarshalTypeError "bool" "map[string]interface \x7b\x7d")
  | .valid (.number _ _) =>
    .error (GoError.UnmarshalTypeError "number" "map[string]interface \x7b\x7d")
  | .valid (.string _) =>
    .error (GoError.UnmarshalTypeError "string" "map[string]interface \x7b\x7d")
  | .valid (.array _) =>
    .error (GoError.UnmarshalTypeError "array" "map[string]interface \x7b\x7d")
  | .valid (.object members) =>
    match convertErrorMembers members with
    | some e => .error e
    | none => .ok members

/-- The map read `m[key]`: the value stored last under `key`, `none` (the nil
interface) when the key is absent. -/
def mapIndex : GoMap → String → Option JSON
  | [], _ => none
  | (k, v) :: ms, key =>
    match mapIndex ms key with
    | some w => some w
    | none => if k = key then some v else none

/-- The dynamic Go type of a decoded value held in an `interface{}`. -/
def dynamicType : Option JSON → Option String
  | none => none
  | some .null => none
  | some (.bool _) => some "bool"
  | some (.number _ _) => some "float64"
  | some (.string _) => some "string"
  | some (.array _) => some "[]interface \x7b\x7d"
  | some (.object _) => some "map[string]interface \x7b\x7d"

/-- The type assertion `x.(string)`: the string, or the panic value. -/
def assertString (x : Option JSON) : Except GoError String :=
  match x with
  | some (.string s) => .ok s
  | _ => .error (GoError.TypeAssertionError (dynamicType x) "string")

/-- The type assertion `x.(float64)`: the number, or the panic value. -/
def assertFloat64 (x : Option JSON) : Except GoError Float64 :=
  match x with
  | some (.number _ (some f)) => .ok f
  | _ => .error (GoError.TypeAssertionError (dynamicType x) "float64")

/-! ## The store (`models`) -/

/-- What `models.InsertItem(&item)` leaves behind: the store's state, the
`ItemID` the item holds after the call, the first return value (which `AddData`
discards) and the error. -/
structure InsertResult (σ : Type) where
  db : σ
  ItemID : Int
  id : Int
  err : Option GoError

/-- What `models.UpdateItem(item_id, &item)` leaves behind: the store's state,
the affected count `n` and the error. -/
structure UpdateResult (σ : Type) where
  db : σ
  n : Int
  err : Option GoError

/-- Modelled from the spec: the Item Store of package `models`, which is not
part of the sources.  `Insert(item) -> (assignedIdentifier, error)` assigns the
identifier of the item it is handed and `UpdateByIdentifier(identifier, item) ->
(affectedCount, error)` returns a count; both return normally.  The operations
are arbitrary functions of the store's state `σ` and their arguments. -/
structure Store (σ : Type) where
  InsertItem : σ → Item → InsertResult σ
  UpdateItem : σ → Int → Item → UpdateResult σ

/-- A call into the store, with its arguments. -/
inductive StoreCall where
  | InsertItem (item : Item)
  | UpdateItem (item_id : Int) (item : Item)
  deriving DecidableEq, Repr

/-- What handling one request leaves behind: the store's state, the store
calls made and the `ctx.JSON(status, response)` calls made, each in order. -/
structure Effects (σ : Type) where
  db : σ
  calls : List StoreCall
  written : List (Nat × ResponseData)

/-- `ctx.JSON(code, obj)`. -/
def Effects.JSON {σ : Type} (ctx : Effects σ) (code : Nat) (obj : ResponseData) : Effects σ :=
  { ctx with written := ctx.written ++ [(code, obj)] }

/-! ## The handlers -/

/-- `AddData`, on a request whose body is `data`, against store `models` in
state `db`. -/
def AddData {σ : Type} (models : Store σ) (db : σ) (data : Body) : Effects σ :=
  let ctx : Effects σ := { db := db, calls := [], written := [] }
  let response := ResponseData.zero
  match Unmarshal data with
  | .error err =>
    ctx.JSON StatusBadRequest
      { response with Code := 1, Msg := "客户端传递的json非法", Data := Data.errorText err }
  | .ok jsonStr =>
    -- the deferred function, run when a type assertion below panics with `err`
    let recovered (err : GoError) : Effects σ :=
      ctx.JSON StatusInternalServerError
        { response with Code := 1, Msg := "客户端传递的json值无效", Data := Data.errorText err }
    match assertString (mapIndex jsonStr "name") with
    | .error err => recovered err
    | .ok name =>
      match assertFloat64 (mapIndex jsonStr "price") with
      | .error err => recovered err
      | .ok price =>
        let item : Item := { ItemID := 0, Name := name, Price := price }
        let r := models.InsertItem ctx.db item
        let ctx := { ctx with db := r.db, calls := ctx.calls ++ [StoreCall.InsertItem item] }
        let item := { item with ItemID := r.ItemID }
        match r.err with
        | some err =>
          ctx.JSON StatusInternalServerError
            { response with Code := 1, Msg := "插入数据失败", Data := Data.errorText err }
        | none =>
          ctx.JSON StatusOK
            { response with
              Code := 0, Msg := "成功",
              Data := Data.info "item_info" item.ItemID item.Name item.Price }

/-- `fmt.Sprintf("item_id为%v的商品不存在", item_id)`. -/
def notFoundText (item_id : Int) : String :=
  "item_id为" ++ toString item_id ++ "的商品不存在"

/-- `UpdateData`, on a request whose path parameter `item_id` is `itemIDStr`
and whose body is `data`, against store `models` in state `db`. -/
def UpdateData {σ : Type} (models : Store σ) (db : σ) (itemIDStr : String) (data : Body) :
    Effects σ :=
  let ctx : Effects σ := { db := db, calls := [], written := [] }
  let response := ResponseData.zero
  match ParseInt itemIDStr with
  | .error err =>
    ctx.JSON StatusBadRequest
      { response with Code := 1, Msg := "链接中的item_id非法", Data := Data.errorText err }
  | .ok item_id =>
    match Unmarshal data with
    | .error err =>
      ctx.JSON StatusBadRequest
        { response with Code := 1, Msg := "客户端传递的json非法", Data := Data.errorText err }
    | .ok jsonStr =>
      -- the deferred function, run when a type assertion below panics with `err`
      let recovered (err : GoError) : Effects σ :=
        ctx.JSON StatusInternalServerError
          { response with Code := 1, Msg := "客户端传递的json值无效", Data := Data.errorText err }
      match assertString (mapIndex jsonStr "name") with
      | .error err => recovered err
      | .ok name =>
        match assertFloat64 (mapIndex jsonStr "price") with
        | .error err => recovered err
        | .ok price =>
          let item : Item := { ItemID := item_id, Name := name, Price := price }
          let r := models.UpdateItem ctx.db item_id item
          let ctx :=
            { ctx with db := r.db, calls := ctx.calls ++ [StoreCall.UpdateItem item_id item] }
          match r.err with
          | some err =>
            ctx.JSON StatusInternalServerError
              { response with
                Code := 1, Msg := "更新数据失败，item_id：" ++ itemIDStr,
                Data := Data.errorText err }
          | none =>
            if r.n = 0 then
              ctx.JSON StatusInternalServerError
                { response with
                  Code := 1, Msg := "未找到相关记录", Data := Data.text (notFoundText item_id) }
            else
              ctx.JSON StatusOK
                { response with
                  Code := 0, Msg := "成功",
                  Data := Data.info "store_info" item.ItemID item.Name item.Price }

/-! ## Stores to run the handlers against -/

/-- A store whose operations answer with fixed values: `InsertItem` assigns
`ItemID` and `UpdateItem` reports `n` rows, both with error `err`. -/
def fixedStore (ItemID n : Int) (err : Option GoError) : Store Unit where
  InsertItem := fun _ _ => { db := (), ItemID := ItemID, id := ItemID, err := err }
  UpdateItem := fun _ _ _ => { db := (), n := n, err := err }

/-- Modelled from the spec: a store that keeps its rows in a list.  `Insert`
assigns the identifier after the largest one in use and appends the row;
`UpdateByIdentifier` overwrites name and price of the rows with the identifier
and returns how many there are. -/
def listStore : Store (List Item) where
  InsertItem := fun rows item =>
    let id := (rows.map Item.ItemID).foldl max 0 + 1
    { db := rows ++ [{ item with ItemID := id }], ItemID := id, id := id, err := none }
  UpdateItem := fun rows item_id item =>
    { db := rows.map (fun row =>
        if row.ItemID = item_id then { row with Name := item.Name, Price := item.Price }
        else row),
      n := ((rows.filter (fun row => row.ItemID = item_id)).length : Int),
      err := none }

/-- The body `{"name":"Pen","price":1.5}`. -/
def penBody : Body :=
  Body.valid (JSON.object [("name", JSON.string "Pen"), ("price", JSON.number "1.5" (some (3 / 2)))])

/-- The body `{"name":"Pen","price":"1.5"}`: the price is a numeric string. -/
def quotedPriceBody : Body :=
  Body.valid (JSON.object [("name", JSON.string "Pen"), ("price", JSON.string "1.5")])

/-- The body `{"name":"","price":1}`. -/
def emptyNameBody : Body :=
  Body.valid (JSON.object [("name", JSON.string ""), ("price", JSON.number "1" (some 1))])

/-! ## Vocabulary of the claims -/

/-- The value held under a key is a JSON string. -/
def isString : Option JSON → Bool
  | some (.string _) => true
  | _ => false

/-- The value held under a key is a JSON number. -/
def isNumber : Option JSON → Bool
  | some (.number _ _) => true
  | _ => false

/-- The body is not JSON, or is JSON whose top-level value is an array, a
string, a number or a boolean. -/
def Body.malformed : Body → Bool
  | .invalid _ => true
  | .valid (.bool _) => true
  | .valid (.number _ _) => true
  | .valid (.string _) => true
  | .valid (.array _) => true
  | .valid .null => false
  | .valid (.object _) => false

/-- The text `sub` occurs in the text `s`. -/
def containsText (s sub : String) : Prop := sub.toList <:+: s.toList

instance (s sub : String) : Decidable (containsText s sub) :=
  inferInstanceAs (Decidable (sub.toList <:+: s.toList))

/-- The success envelope of `AddData`. -/
def itemInfoOK (item_id : Int) (name : String) (price : Float64) : Nat × ResponseData :=
  (200, { Code := 0, Msg := "成功", Data := Data.info "item_info" item_id name price })

/-- The success envelope of `UpdateData`. -/
def storeInfoOK (item_id : Int) (name : String) (price : Float64) : Nat × ResponseData :=
  (200, { Code := 0, Msg := "成功", Data := Data.info "store_info" item_id name price })

/-- The envelope for a body whose `name` or `price` has the wrong type. -/
def invalidValue (err : GoError) : Nat × ResponseData :=
  (500, { Code := 1, Msg := "客户端传递的json值无效", Data := Data.errorText err })

/-- The envelope for a body that does not decode. -/
def invalidJSON (err : GoError) : Nat × ResponseData :=
  (400, { Code := 1, Msg := "客户端传递的json非法", Data := Data.errorText err })

/-- The envelope is populated: code is 0 or 1, msg is not empty and data has
been assigned. -/
def ResponseData.populated (r : ResponseData) : Prop :=
  (r.Code = 0 ∨ r.Code = 1) ∧ r.Msg ≠ "" ∧ r.Data ≠ Data.nil

/-- The Item rules of the data model: a non-empty name and a non-negative
price. -/
def Item.valid (item : Item) : Prop := item.Name ≠ "" ∧ 0 ≤ item.Price

/-- The body `{"name":"Pen","price":-1}`. -/
def negativePriceBody : Body :=
  Body.valid (JSON.object [("name", JSON.string "Pen"), ("price", JSON.number "-1" (some (-1)))])

/-! ## Lemmas on the type assertions -/

theorem assertString_string (s : String) : assertString (some (JSON.string s)) = .ok s := rfl

theorem assertFloat64_number (lit : String) (f : Float64) :
    assertFloat64 (some (JSON.number lit (some f))) = .ok f := rfl

theorem assertString_of_not_isString (x : Option JSON) (h : isString x = false) :
    assertString x = .error (GoError.TypeAssertionError (dynamicType x) "string") := by
  unfold assertString
  split
  · simp [isString] at h
  · rfl

theorem assertFloat64_of_not_isNumber (x : Option JSON) (h : isNumber x = false) :
    assertFloat64 x = .error (GoError.TypeAssertionError (dynamicType x) "float64") := by
  unfold assertFloat64
  split
  · simp [isNumber] at h
  · rfl

theorem assertString_cases (x : Option JSON) :
    (∃ s, x = some (JSON.string s) ∧ assertString x = .ok s) ∨
      assertString x = .error (GoError.TypeAssertionError (dynamicType x) "string") := by
  unfold assertString
  split
  · exact Or.inl ⟨_, rfl, rfl⟩
  · exact Or.inr rfl

theorem assertFloat64_cases (x : Option JSON) :
    (∃ lit f, x = some (JSON.number lit (some f)) ∧ assertFloat64 x = .ok f) ∨
      assertFloat64 x = .error (GoError.TypeAssertionError (dynamicType x) "float64") := by
  unfold assertFloat64
  split
  · exact Or.inl ⟨_, _, rfl, rfl⟩
  · exact Or.inr rfl

/-! ## What the handlers do on each path -/

section Paths

variable {σ : Type} (models : Store σ) (db : σ)

theorem AddData_unmarshal_error (data : Body) (err : GoError)
    (h : Unmarshal data = .error err) :
    AddData models db data = { db := db, calls := [], written := [invalidJSON err] } := by
  simp [AddData, h, Effects.JSON, invalidJSON, ResponseData.zero, StatusBadRequest]

theorem AddData_name_error (data : Body) (jsonStr : GoMap) (err : GoError)
    (h : Unmarshal data = .ok jsonStr)
    (hname : assertString (mapIndex jsonStr "name") = .error err) :
    AddData models db data = { db := db, calls := [], written := [invalidValue err] } := by
  simp [AddData, h, hname, Effects.JSON, invalidValue, ResponseData.zero,
    StatusInternalServerError]

theorem AddData_price_error (data : Body) (jsonStr : GoMap) (name : String) (err : GoError)
    (h : Unmarshal data = .ok jsonStr)
    (hname : assertString (mapIndex jsonStr "name") = .ok name)
    (hprice : assertFloat64 (mapIndex jsonStr "price") = .error err) :
    AddData models db data = { db := db, calls := [], written := [invalidValue err] } := by
  simp [AddData, h, hname, hprice, Effects.JSON, invalidValue, ResponseData.zero,
    StatusInternalServerError]

theorem AddData_checked (data : Body) (jsonStr : GoMap) (name : String) (price : Float64)
    (h : Unmarshal data = .ok jsonStr)
    (hname : assertString (mapIndex jsonStr "name") = .ok name)
    (hprice : assertFloat64 (mapIndex jsonStr "price") = .ok price) :
    AddData models db data =
      { db := (models.InsertItem db ⟨0, name, price⟩).db,
        calls := [StoreCall.InsertItem ⟨0, name, price⟩],
        written :=
          [match (models.InsertItem db ⟨0, name, price⟩).err with
            | some err => (500, { Code := 1, Msg := "插入数据失败", Data := Data.errorText err })
            | none => itemInfoOK (models.InsertItem db ⟨0, name, price⟩).ItemID name price] } := by
  simp only [AddData, h, hname, hprice]
  cases (models.InsertItem db ⟨0, name, price⟩).err <;>
    simp [Effects.JSON, itemInfoOK, ResponseData.zero, StatusInternalServerError, StatusOK]

theorem UpdateData_parse_error (itemIDStr : String) (data : Body) (err : GoError)
    (h : ParseInt itemIDStr = .error err) :
    UpdateData models db itemIDStr data =
      { db := db, calls := [],
        written := [(400, { Code := 1, Msg := "链接中的item_id非法", Data := Data.errorText err })] } := by
  simp [UpdateData, h, Effects.JSON, ResponseData.zero, StatusBadRequest]

theorem UpdateData_unmarshal_error (itemIDStr : String) (item_id : Int) (data : Body)
    (err : GoError) (hid : ParseInt itemIDStr = .ok item_id)
    (h : Unmarshal data = .error err) :
    UpdateData models db itemIDStr data =
      { db := db, calls := [], written := [invalidJSON err] } := by
  simp [UpdateData, hid, h, Effects.JSON, invalidJSON, ResponseData.zero, StatusBadRequest]

theorem UpdateData_name_error (itemIDStr : String) (item_id : Int) (data : Body)
    (jsonStr : GoMap) (err : GoError) (hid : ParseInt itemIDStr = .ok item_id)
    (h : Unmarshal data = .ok jsonStr)
    (hname : assertString (mapIndex jsonStr "name") = .error err) :
    UpdateData models db itemIDStr data =
      { db := db, calls := [], written := [invalidValue err] } := by
  simp [UpdateData, hid, h, hname, Effects.JSON, invalidValue, ResponseData.zero,
    StatusInternalServerError]

theorem UpdateData_price_error (itemIDStr : String) (item_id : Int) (data : Body)
    (jsonStr : GoMap) (name : String) (err : GoError) (hid : ParseInt itemIDStr = .ok item_id)
    (h : Unmarshal data = .ok jsonStr)
    (hname : assertString (mapIndex jsonStr "name") = .ok name)
    (hprice : assertFloat64 (mapIndex jsonStr "price") = .error err) :
    UpdateData models db itemIDStr data =
      { db := db, calls := [], written := [invalidValue err] } := by
  simp [UpdateData, hid, h, hname, hprice, Effects.JSON, invalidValue, ResponseData.zero,
    StatusInternalServerError]

theorem UpdateData_checked (itemIDStr : String) (item_id : Int) (data : Body)
    (jsonStr : GoMap) (name : String) (price : Float64)
    (hid : ParseInt itemIDStr = .ok item_id)
    (h : Unmarshal data = .ok jsonStr)
    (hname : assertString (mapIndex jsonStr "name") = .ok name)
    (hprice : assertFloat64 (mapIndex jsonStr "price") = .ok price) :
    UpdateData models db itemIDStr data =
      { db := (models.UpdateItem db item_id ⟨item_id, name, price⟩).db,
        calls := [StoreCall.UpdateItem item_id ⟨item_id, name, price⟩],
        written :=
          [match (models.UpdateItem db item_id ⟨item_id, name, price⟩).err with
            | some err =>
              (500, { Code := 1, Msg := "更新数据失败，item_id：" ++ itemIDStr,
                      Data := Data.errorText err })
            | none =>
              if (models.UpdateItem db item_id ⟨item_id, name, price⟩).n = 0 then
                (500, { Code := 1, Msg := "未找到相关记录",
                        Data := Data.text (notFoundText item_id) })
              else storeInfoOK item_id name price] } := by
  simp only [UpdateData, hid, h, hname, hprice]
  cases (models.UpdateItem db item_id ⟨item_id, name, price⟩).err
  · by_cases hn : (models.UpdateItem db item_id ⟨item_id, name, price⟩).n = 0 <;>
      simp [hn, Effects.JSON, storeInfoOK, ResponseData.zero, StatusInternalServerError,
        StatusOK]
  · simp [Effects.JSON, ResponseData.zero, StatusInternalServerError]

end Paths

/-! ## Lemmas on texts -/

theorem notFoundText_contains (item_id : Int) :
    containsText (notFoundText item_id) (toString item_id) := by
  refine ⟨"item_id为".toList, "的商品不存在".toList, ?_⟩
  simp [notFoundText, String.toList]

theorem append_ne_empty (s t : String) (h : s ≠ "") : s ++ t ≠ "" := by
  intro hst
  apply h
  have hd : (s ++ t).data = [] := by rw [hst]
  rw [String.data_append] at hd
  exact String.ext (List.append_eq_nil.mp hd).1

/-! ## The decoder on bodies that are not objects -/

theorem Unmarshal_malformed (data : Body) (h : data.malformed = true) :
    ∃ err : GoError, Unmarshal data = .error err := by
  cases data with
  | invalid e => exact ⟨_, rfl⟩
  | valid v =>
    cases v with
    | null => simp [Body.malformed] at h
    | object ms => simp [Body.malformed] at h
    | bool b => exact ⟨_, rfl⟩
    | number lit val => exact ⟨_, rfl⟩
    | string t => exact ⟨_, rfl⟩
    | array es => exact ⟨_, rfl⟩

/-! ## One populated envelope on every path -/

theorem AddData_one_envelope {σ : Type} (models : Store σ) (db : σ) (data : Body) :
    ∃ (status : Nat) (response : ResponseData),
      (AddData models db data).written = [(status, response)] ∧ response.populated := by
  cases hdec : Unmarshal data with
  | error err =>
    rw [AddData_unmarshal_error models db data err hdec]
    exact ⟨_, _, rfl, by simp [ResponseData.populated]⟩
  | ok jsonStr =>
    rcases assertString_cases (mapIndex jsonStr "name") with ⟨name, -, hs⟩ | hs
    · rcases assertFloat64_cases (mapIndex jsonStr "price") with ⟨lit, price, -, hp⟩ | hp
      · rw [AddData_checked models db data jsonStr name price hdec hs hp]
        cases (models.InsertItem db ⟨0, name, price⟩).err with
        | none => exact ⟨_, _, rfl, by simp [ResponseData.populated]⟩
        | some err => exact ⟨_, _, rfl, by simp [ResponseData.populated]⟩
      · rw [AddData_price_error models db data jsonStr name _ hdec hs hp]
        exact ⟨_, _, rfl, by simp [ResponseData.populated]⟩
    · rw [AddData_name_error models db data jsonStr _ hdec hs]
      exact ⟨_, _, rfl, by simp [ResponseData.populated]⟩

theorem UpdateData_one_envelope {σ : Type} (models : Store σ) (db : σ) (itemIDStr : String)
    (data : Body) :
    ∃ (status : Nat) (response : ResponseData),
      (UpdateData models db itemIDStr data).written = [(status, response)] ∧
        response.populated := by
  cases hid : ParseInt itemIDStr with
  | error err =>
    rw [UpdateData_parse_error models db itemIDStr data err hid]
    exact ⟨_, _, rfl, by simp [ResponseData.populated]⟩
  | ok item_id =>
    cases hdec : Unmarshal data with
    | error err =>
      rw [UpdateData_unmarshal_error models db itemIDStr item_id data err hid hdec]
      exact ⟨_, _, rfl, by simp [ResponseData.populated]⟩
    | ok jsonStr =>
      rcases assertString_cases (mapIndex jsonStr "name") with ⟨name, -, hs⟩ | hs
      · rcases assertFloat64_cases (mapIndex jsonStr "price") with ⟨lit, price, -, hp⟩ | hp
        · rw [UpdateData_checked models db itemIDStr item_id data jsonStr name price hid hdec
            hs hp]
          cases (models.UpdateItem db item_id ⟨item_id, name, price⟩).err with
          | none =>
            by_cases hn : (models.UpdateItem db item_id ⟨item_id, name, price⟩).n = 0
            · exact ⟨500, ⟨1, "未找到相关记录", Data.text (notFoundText item_id)⟩,
                by simp [hn], by simp [ResponseData.populated]⟩
            · exact ⟨200, ⟨0, "成功", Data.info "store_info" item_id name price⟩,
                by simp [hn, storeInfoOK], by simp [ResponseData.populated]⟩
          | some err =>
            refine ⟨_, _, rfl, Or.inr rfl, ?_, by simp⟩
            exact append_ne_empty _ _ (by decide)
        · rw [UpdateData_price_error models db itemIDStr item_id data jsonStr name _ hid hdec
            hs hp]
          exact ⟨_, _, rfl, by simp [ResponseData.populated]⟩
      · rw [UpdateData_name_error models db itemIDStr item_id data jsonStr _ hid hdec hs]
        exact ⟨_, _, rfl, by simp [ResponseData.populated]⟩

/-! ## Create: the success envelope -/

section Claims

variable {σ : Type} (models : Store σ) (db : σ)

/-- C1: when the body decodes to a map whose `name` is a string and whose
`price` is a number, and `InsertItem` returns no error, `AddData` answers with
HTTP 200 and the envelope code=0, msg="成功", data={item_info:{item_id, name,
price}}: name and price are the body's, item_id is the identifier the item
holds after the insert. -/
theorem AddData_success (data : Body) (jsonStr : GoMap) (name lit : String) (price : Float64)
    (hdec : Unmarshal data = .ok jsonStr)
    (hname : mapIndex jsonStr "name" = some (JSON.string name))
    (hprice : mapIndex jsonStr "price" = some (JSON.number lit (some price)))
    (hins : (models.InsertItem db ⟨0, name, price⟩).err = none) :
    (AddData models db data).written =
      [(200, { Code := 0, Msg := "成功",
               Data := Data.info "item_info"
                 (models.InsertItem db ⟨0, name, price⟩).ItemID name price })] := by
  have hn : assertString (mapIndex jsonStr "name") = .ok name := by rw [hname]; rfl
  have hp : assertFloat64 (mapIndex jsonStr "price") = .ok price := by rw [hprice]; rfl
  rw [AddData_checked models db data jsonStr name price hdec hn hp]
  simp [hins, itemInfoOK]

/-- The body `{"name":"Pen","price":1.5}` against an empty store: 200 with the
assigned identifier 1. -/
theorem AddData_success_witness :
    (AddData listStore [] penBody).written =
      [(200, { Code := 0, Msg := "成功", Data := Data.info "item_info" 1 "Pen" (3 / 2) })] :=
  AddData_success listStore [] penBody _ "Pen" "1.5" (3 / 2) rfl rfl rfl rfl

/-! ## Create and Update: fields of the wrong type -/

/-- C2: when the body decodes to a map in which `name` is missing or is not a
string, or `price` is missing or is not a number, `AddData` and `UpdateData`
(with a well-formed path identifier) answer with HTTP 500, code=1 and
msg="客户端传递的json值无效"; no item is built from a value of another kind: the
store is not called and its state is unchanged. -/
theorem invalid_field_rejected (itemIDStr : String) (item_id : Int) (data : Body)
    (jsonStr : GoMap)
    (hid : ParseInt itemIDStr = .ok item_id)
    (hdec : Unmarshal data = .ok jsonStr)
    (hbad : isString (mapIndex jsonStr "name") = false ∨
      isNumber (mapIndex jsonStr "price") = false) :
    ∃ err : GoError,
      AddData models db data =
        { db := db, calls := [],
          written := [(500, { Code := 1, Msg := "客户端传递的json值无效",
                              Data := Data.errorText err })] } ∧
      UpdateData models db itemIDStr data =
        { db := db, calls := [],
          written := [(500, { Code := 1, Msg := "客户端传递的json值无效",
                              Data := Data.errorText err })] } := by
  rcases assertString_cases (mapIndex jsonStr "name") with ⟨s, hs, hok⟩ | herr
  · have hnum : isNumber (mapIndex jsonStr "price") = false := by
      rcases hbad with h | h
      · rw [hs] at h; simp [isString] at h
      · exact h
    have hp := assertFloat64_of_not_isNumber _ hnum
    exact ⟨_, AddData_price_error models db data jsonStr s _ hdec hok hp,
      UpdateData_price_error models db itemIDStr item_id data jsonStr s _ hid hdec hok hp⟩
  · exact ⟨_, AddData_name_error models db data jsonStr _ hdec herr,
      UpdateData_name_error models db itemIDStr item_id data jsonStr _ hid hdec herr⟩

/-- The body `{"name":"Pen","price":"1.5"}`: the numeric string is not parsed
into the price. -/
theorem invalid_field_rejected_witness :
    ∃ err : GoError,
      AddData listStore [] quotedPriceBody =
        { db := [], calls := [],
          written := [(500, { Code := 1, Msg := "客户端传递的json值无效",
                              Data := Data.errorText err })] } ∧
      UpdateData listStore [] "7" quotedPriceBody =
        { db := [], calls := [],
          written := [(500, { Code := 1, Msg := "客户端传递的json值无效",
                              Data := Data.errorText err })] } :=
  invalid_field_rejected listStore [] "7" 7 quotedPriceBody _ rfl rfl (Or.inr rfl)

/-! ## Update: the path identifier -/

/-- C3: when `strconv.ParseInt(item_id, 10, 64)` fails, `UpdateData` answers
with HTTP 400, code=1 and msg="链接中的item_id非法", without calling the store;
the outcome is the same for every body. -/
theorem UpdateData_bad_identifier (itemIDStr : String) (err : GoError)
    (h : ParseInt itemIDStr = .error err) :
    (∀ data : Body, UpdateData models db itemIDStr data =
      { db := db, calls := [],
        written := [(400, { Code := 1, Msg := "链接中的item_id非法",
                            Data := Data.errorText err })] }) ∧
    (∀ data₁ data₂ : Body,
      UpdateData models db itemIDStr data₁ = UpdateData models db itemIDStr data₂) := by
  have key := fun data => UpdateData_parse_error models db itemIDStr data err h
  exact ⟨key, fun d₁ d₂ => by rw [key d₁, key d₂]⟩

/-- The path segment `abc`, with a valid body and with a body that is not JSON. -/
theorem UpdateData_bad_identifier_witness :
    ParseInt "abc" = .error (GoError.NumError "ParseInt" "abc" NumErr.ErrSyntax) ∧
    UpdateData listStore [] "abc" penBody = UpdateData listStore [] "abc" (Body.invalid "") :=
  ⟨rfl, (UpdateData_bad_identifier listStore [] "abc" _ rfl).2 _ _⟩

/-! ## Update: the affected count -/

/-- C4 as stated fails: for `POST /item/999` against an empty store `UpdateItem`
reports no error and 0 rows, and the answer is HTTP 500, code=1 with the fixed
msg "未找到相关记录", which does not contain the identifier. -/
theorem not_found_msg_lacks_identifier :
    ParseInt "999" = .ok 999 ∧
    (listStore.UpdateItem [] 999 ⟨999, "Pen", 3 / 2⟩).err = none ∧
    (listStore.UpdateItem [] 999 ⟨999, "Pen", 3 / 2⟩).n = 0 ∧
    (UpdateData listStore [] "999" penBody).written =
      [(500, { Code := 1, Msg := "未找到相关记录",
               Data := Data.text "item_id为999的商品不存在" })] ∧
    ¬ containsText "未找到相关记录" "999" := by
  refine ⟨rfl, rfl, rfl, rfl, ?_⟩
  decide

/-- C4, amended: with a well-formed path identifier and a valid body, when
`UpdateItem` reports no error and affectedCount = 0, the answer is HTTP 500 with
code=1, msg="未找到相关记录" and data="item_id为<id>的商品不存在"; it is the data
text that contains the identifier (in decimal). -/
theorem UpdateData_not_found (itemIDStr : String) (item_id : Int) (data : Body)
    (jsonStr : GoMap) (name lit : String) (price : Float64)
    (hid : ParseInt itemIDStr = .ok item_id)
    (hdec : Unmarshal data = .ok jsonStr)
    (hname : mapIndex jsonStr "name" = some (JSON.string name))
    (hprice : mapIndex jsonStr "price" = some (JSON.number lit (some price)))
    (herr : (models.UpdateItem db item_id ⟨item_id, name, price⟩).err = none)
    (hn : (models.UpdateItem db item_id ⟨item_id, name, price⟩).n = 0) :
    (UpdateData models db itemIDStr data).written =
      [(500, { Code := 1, Msg := "未找到相关记录",
               Data := Data.text (notFoundText item_id) })] ∧
    containsText (notFoundText item_id) (toString item_id) := by
  have hs : assertString (mapIndex jsonStr "name") = .ok name := by rw [hname]; rfl
  have hp : assertFloat64 (mapIndex jsonStr "price") = .ok price := by rw [hprice]; rfl
  rw [UpdateData_checked models db itemIDStr item_id data jsonStr name price hid hdec hs hp]
  exact ⟨by simp [herr, hn], notFoundText_contains item_id⟩

/-- The request `POST /item/999` with `{"name":"Pen","price":1.5}` against an
empty store. -/
theorem UpdateData_not_found_witness :
    (UpdateData listStore [] "999" penBody).written =
      [(500, { Code := 1, Msg := "未找到相关记录",
               Data := Data.text (notFoundText 999) })] ∧
    containsText (notFoundText 999) (toString (999 : Int)) :=
  UpdateData_not_found listStore [] "999" 999 penBody _ "Pen" "1.5" (3 / 2) rfl rfl rfl rfl
    rfl rfl

/-- C5 as stated fails: when `UpdateItem` reports 2 affected rows and no error,
`UpdateData` answers with HTTP 200 and the success envelope code=0. -/
theorem UpdateData_two_affected_accepted :
    ((fixedStore 0 2 none).UpdateItem () 7 ⟨7, "Pen", 3 / 2⟩).err = none ∧
    ((fixedStore 0 2 none).UpdateItem () 7 ⟨7, "Pen", 3 / 2⟩).n = 2 ∧
    (UpdateData (fixedStore 0 2 none) () "7" penBody).written =
      [(200, { Code := 0, Msg := "成功", Data := Data.info "store_info" 7 "Pen" (3 / 2) })] :=
  ⟨rfl, rfl, rfl⟩

/-- C5, amended: with a well-formed path identifier and a valid body, when
`UpdateItem` returns no error and an affectedCount greater than 1, the count is
not escalated: `UpdateData` answers as for one affected row, with HTTP 200 and
the success envelope code=0, msg="成功", data={store_info:{item_id, name,
price}}. -/
theorem UpdateData_many_affected (itemIDStr : String) (item_id : Int) (data : Body)
    (jsonStr : GoMap) (name lit : String) (price : Float64)
    (hid : ParseInt itemIDStr = .ok item_id)
    (hdec : Unmarshal data = .ok jsonStr)
    (hname : mapIndex jsonStr "name" = some (JSON.string name))
    (hprice : mapIndex jsonStr "price" = some (JSON.number lit (some price)))
    (herr : (models.UpdateItem db item_id ⟨item_id, name, price⟩).err = none)
    (hn : 1 < (models.UpdateItem db item_id ⟨item_id, name, price⟩).n) :
    (UpdateData models db itemIDStr data).written =
      [(200, { Code := 0, Msg := "成功",
               Data := Data.info "store_info" item_id name price })] := by
  have hs : assertString (mapIndex jsonStr "name") = .ok name := by rw [hname]; rfl
  have hp : assertFloat64 (mapIndex jsonStr "price") = .ok price := by rw [hprice]; rfl
  have h0 : (models.UpdateItem db item_id ⟨item_id, name, price⟩).n ≠ 0 := by omega
  rw [UpdateData_checked models db itemIDStr item_id data jsonStr name price hid hdec hs hp]
  simp [herr, h0, storeInfoOK]

/-- A store that reports 3 affected rows. -/
theorem UpdateData_many_affected_witness :
    (UpdateData (fixedStore 0 3 none) () "-12" penBody).written =
      [(200, { Code := 0, Msg := "成功",
               Data := Data.info "store_info" (-12) "Pen" (3 / 2) })] :=
  UpdateData_many_affected (fixedStore 0 3 none) () "-12" (-12) penBody _ "Pen" "1.5" (3 / 2)
    rfl rfl rfl rfl rfl (by decide)

/-- C8: with a well-formed path identifier and a valid body, when `UpdateItem`
reports no error and affectedCount = 1, the answer is HTTP 200 with code=0,
msg="成功" and data={store_info:{item_id, name, price}}, item_id being the
integer parsed from the path and name and price the body's; and when the same
request is submitted again and the store again reports no error and one
affected row, the second answer is identical to the first. -/
theorem UpdateData_success (itemIDStr : String) (item_id : Int) (data : Body)
    (jsonStr : GoMap) (name lit : String) (price : Float64)
    (hid : ParseInt itemIDStr = .ok item_id)
    (hdec : Unmarshal data = .ok jsonStr)
    (hname : mapIndex jsonStr "name" = some (JSON.string name))
    (hprice : mapIndex jsonStr "price" = some (JSON.number lit (some price)))
    (herr : (models.UpdateItem db item_id ⟨item_id, name, price⟩).err = none)
    (hn : (models.UpdateItem db item_id ⟨item_id, name, price⟩).n = 1) :
    (UpdateData models db itemIDStr data).written =
      [(200, { Code := 0, Msg := "成功",
               Data := Data.info "store_info" item_id name price })] ∧
    ((models.UpdateItem (UpdateData models db itemIDStr data).db item_id
        ⟨item_id, name, price⟩).err = none →
      (models.UpdateItem (UpdateData models db itemIDStr data).db item_id
        ⟨item_id, name, price⟩).n = 1 →
      (UpdateData models (UpdateData models db itemIDStr data).db itemIDStr data).written =
        (UpdateData models db itemIDStr data).written) := by
  have hs : assertString (mapIndex jsonStr "name") = .ok name := by rw [hname]; rfl
  have hp : assertFloat64 (mapIndex jsonStr "price") = .ok price := by rw [hprice]; rfl
  have once : ∀ db' : σ,
      (models.UpdateItem db' item_id ⟨item_id, name, price⟩).err = none →
      (models.UpdateItem db' item_id ⟨item_id, name, price⟩).n = 1 →
      (UpdateData models db' itemIDStr data).written =
        [(200, { Code := 0, Msg := "成功",
                 Data := Data.info "store_info" item_id name price })] := by
    intro db' he h1
    rw [UpdateData_checked models db' itemIDStr item_id data jsonStr name price hid hdec hs hp]
    simp [he, h1, storeInfoOK]
  refine ⟨once db herr hn, fun he h1 => ?_⟩
  rw [once _ he h1, once db herr hn]

/-- The request `POST /item/999` with `{"name":"Pen","price":1.5}`, twice,
against a store that holds item 999. -/
theorem UpdateData_success_witness :
    (UpdateData listStore [⟨999, "Ink", 1⟩] "999" penBody).written =
      [(200, { Code := 0, Msg := "成功",
               Data := Data.info "store_info" 999 "Pen" (3 / 2) })] ∧
    (UpdateData listStore (UpdateData listStore [⟨999, "Ink", 1⟩] "999" penBody).db "999"
        penBody).written =
      (UpdateData listStore [⟨999, "Ink", 1⟩] "999" penBody).written :=
  have h := UpdateData_success listStore [⟨999, "Ink", 1⟩] "999" 999 penBody _ "Pen" "1.5"
    (3 / 2) rfl rfl rfl rfl rfl rfl
  ⟨h.1, h.2 rfl rfl⟩

/-! ## Create and Update: bodies that do not decode -/

/-- C6 as stated fails: the body `null` is valid JSON whose top-level value is
not an object, and `AddData` and `UpdateData` answer it with HTTP 500 and
msg="客户端传递的json值无效", not with HTTP 400. -/
theorem null_body_not_malformed :
    (AddData listStore [] (Body.valid JSON.null)).written =
      [(500, { Code := 1, Msg := "客户端传递的json值无效",
               Data := Data.errorText (GoError.TypeAssertionError none "string") })] ∧
    (UpdateData listStore [] "7" (Body.valid JSON.null)).written =
      [(500, { Code := 1, Msg := "客户端传递的json值无效",
               Data := Data.errorText (GoError.TypeAssertionError none "string") })] :=
  ⟨rfl, rfl⟩

/-- C6, amended: a body that is not JSON, or that is valid JSON whose top-level
value is an array, a string, a number or a boolean, is rejected by `AddData` and
by `UpdateData` (with a well-formed path identifier) with HTTP 400, code=1 and
msg="客户端传递的json非法", the store untouched; a top-level `null` is not a
decode failure: it is answered as a missing `name`, with HTTP 500, code=1 and
msg="客户端传递的json值无效". -/
theorem malformed_body_rejected (itemIDStr : String) (item_id : Int)
    (hid : ParseInt itemIDStr = .ok item_id) :
    (∀ data : Body, data.malformed = true →
      ∃ err : GoError,
        AddData models db data =
          { db := db, calls := [],
            written := [(400, { Code := 1, Msg := "客户端传递的json非法",
                                Data := Data.errorText err })] } ∧
        UpdateData models db itemIDStr data =
          { db := db, calls := [],
            written := [(400, { Code := 1, Msg := "客户端传递的json非法",
                                Data := Data.errorText err })] }) ∧
    AddData models db (Body.valid JSON.null) =
      { db := db, calls := [],
        written := [(500, { Code := 1, Msg := "客户端传递的json值无效",
                            Data := Data.errorText
                              (GoError.TypeAssertionError none "string") })] } ∧
    UpdateData models db itemIDStr (Body.valid JSON.null) =
      { db := db, calls := [],
        written := [(500, { Code := 1, Msg := "客户端传递的json值无效",
                            Data := Data.errorText
                              (GoError.TypeAssertionError none "string") })] } := by
  refine ⟨fun data hmal => ?_, ?_, ?_⟩
  · obtain ⟨err, he⟩ := Unmarshal_malformed data hmal
    exact ⟨err, AddData_unmarshal_error models db data err he,
      UpdateData_unmarshal_error models db itemIDStr item_id data err hid he⟩
  · exact AddData_name_error models db _ [] _ rfl rfl
  · exact UpdateData_name_error models db itemIDStr item_id _ [] _ hid rfl rfl

/-- The body `[1]`, a top-level array, on `POST /item/7`. -/
theorem malformed_body_rejected_witness :
    ∃ err : GoError,
      AddData listStore [] (Body.valid (JSON.array [JSON.number "1" (some 1)])) =
        { db := [], calls := [],
          written := [(400, { Code := 1, Msg := "客户端传递的json非法",
                              Data := Data.errorText err })] } ∧
      UpdateData listStore [] "7" (Body.valid (JSON.array [JSON.number "1" (some 1)])) =
        { db := [], calls := [],
          written := [(400, { Code := 1, Msg := "客户端传递的json非法",
                              Data := Data.errorText err })] } :=
  (malformed_body_rejected listStore [] "7" 7 rfl).1 _ rfl

/-! ## One envelope per request -/

/-- C7: for every path identifier, every body and every store, `AddData` and
`UpdateData` each make exactly one `ctx.JSON` call, and in the envelope written
code is 0 or 1, msg is not empty and data has been assigned. -/
theorem one_populated_envelope (itemIDStr : String) (data : Body) :
    (∃ (status : Nat) (response : ResponseData),
      (AddData models db data).written = [(status, response)] ∧
      (response.Code = 0 ∨ response.Code = 1) ∧ response.Msg ≠ "" ∧
      response.Data ≠ Data.nil) ∧
    (∃ (status : Nat) (response : ResponseData),
      (UpdateData models db itemIDStr data).written = [(status, response)] ∧
      (response.Code = 0 ∨ response.Code = 1) ∧ response.Msg ≠ "" ∧
      response.Data ≠ Data.nil) :=
  ⟨AddData_one_envelope models db data, UpdateData_one_envelope models db itemIDStr data⟩

/-! ## What reaches the store -/

/-- C9 as stated fails: the body `{"name":"","price":1}` reaches `InsertItem`
with its empty name and is answered with code=0, and the body
`{"name":"Pen","price":-1}` reaches `UpdateItem` with its negative price and is
answered with code=0. -/
theorem invalid_item_reaches_store :
    (AddData listStore [] emptyNameBody).calls = [StoreCall.InsertItem ⟨0, "", 1⟩] ∧
    ¬ Item.valid ⟨0, "", 1⟩ ∧
    (AddData listStore [] emptyNameBody).written =
      [(200, { Code := 0, Msg := "成功", Data := Data.info "item_info" 1 "" 1 })] ∧
    (UpdateData listStore [⟨7, "Ink", 1⟩] "7" negativePriceBody).calls =
      [StoreCall.UpdateItem 7 ⟨7, "Pen", -1⟩] ∧
    ¬ Item.valid ⟨7, "Pen", -1⟩ ∧
    (UpdateData listStore [⟨7, "Ink", 1⟩] "7" negativePriceBody).written =
      [(200, { Code := 0, Msg := "成功", Data := Data.info "store_info" 7 "Pen" (-1) })] := by
  refine ⟨rfl, ?_, rfl, rfl, ?_, rfl⟩
  · simp [Item.valid]
  · simp [Item.valid]

/-- C9, amended: the Item that `AddData` passes to `InsertItem` and the Item
that `UpdateData` passes to `UpdateItem` carry the body's `name` string and
`price` number as they are; only their types are checked, so an empty name or a
negative price reaches the store, and is answered with code=0 when the store
reports success. -/
theorem store_receives_body_values (itemIDStr : String) (item_id : Int) (data : Body)
    (jsonStr : GoMap) (name lit : String) (price : Float64)
    (hid : ParseInt itemIDStr = .ok item_id)
    (hdec : Unmarshal data = .ok jsonStr)
    (hname : mapIndex jsonStr "name" = some (JSON.string name))
    (hprice : mapIndex jsonStr "price" = some (JSON.number lit (some price))) :
    (AddData models db data).calls = [StoreCall.InsertItem ⟨0, name, price⟩] ∧
    (UpdateData models db itemIDStr data).calls =
      [StoreCall.UpdateItem item_id ⟨item_id, name, price⟩] ∧
    ((models.InsertItem db ⟨0, name, price⟩).err = none →
      ∃ response : ResponseData,
        (AddData models db data).written = [(200, response)] ∧ response.Code = 0) ∧
    ((models.UpdateItem db item_id ⟨item_id, name, price⟩).err = none →
      (models.UpdateItem db item_id ⟨item_id, name, price⟩).n ≠ 0 →
      ∃ response : ResponseData,
        (UpdateData models db itemIDStr data).written = [(200, response)] ∧
          response.Code = 0) := by
  have hs : assertString (mapIndex jsonStr "name") = .ok name := by rw [hname]; rfl
  have hp : assertFloat64 (mapIndex jsonStr "price") = .ok price := by rw [hprice]; rfl
  rw [AddData_checked models db data jsonStr name price hdec hs hp,
    UpdateData_checked models db itemIDStr item_id data jsonStr name price hid hdec hs hp]
  refine ⟨rfl, rfl, fun he => ?_, fun he hn => ?_⟩
  · exact ⟨⟨0, "成功", Data.info "item_info"
      (models.InsertItem db ⟨0, name, price⟩).ItemID name price⟩,
      by simp [he, itemInfoOK], rfl⟩
  · exact ⟨⟨0, "成功", Data.info "store_info" item_id name price⟩,
      by simp [he, hn, storeInfoOK], rfl⟩

/-- The body `{"name":"Pen","price":-1}` on `PUT /item` and on `POST /item/7`. -/
theorem store_receives_body_values_witness :
    (AddData listStore [⟨7, "Ink", 1⟩] negativePriceBody).calls =
      [StoreCall.InsertItem ⟨0, "Pen", -1⟩] ∧
    (UpdateData listStore [⟨7, "Ink", 1⟩] "7" negativePriceBody).calls =
      [StoreCall.UpdateItem 7 ⟨7, "Pen", -1⟩] ∧
    (∃ response : ResponseData,
      (AddData listStore [⟨7, "Ink", 1⟩] negativePriceBody).written = [(200, response)] ∧
        response.Code = 0) ∧
    (∃ response : ResponseData,
      (UpdateData listStore [⟨7, "Ink", 1⟩] "7" negativePriceBody).written =
        [(200, response)] ∧ response.Code = 0) :=
  have h := store_receives_body_values listStore [⟨7, "Ink", 1⟩] "7" 7 negativePriceBody _
    "Pen" "-1" (-1) rfl rfl rfl rfl
  ⟨h.1, h.2.1, h.2.2.1 rfl, h.2.2.2 rfl (by decide)⟩

/-! ## The store is called after validation, once -/

/-- C10: `AddData` does not call the store when the body fails to decode or
when `name` or `price` fails the type check; `UpdateData` does not call it when
the path identifier fails to parse, the body fails to decode, or `name` or
`price` fails the type check; in these cases the store's state is unchanged.
When every stage passes, the store operation is called exactly once, with an
Item whose name and price are the body's (and, for `UpdateData`, whose
identifier and lookup key are both the integer parsed from the path). -/
theorem store_called_after_validation (itemIDStr : String) (data : Body) :
    (∀ err, Unmarshal data = .error err →
      (AddData models db data).calls = [] ∧ (AddData models db data).db = db) ∧
    (∀ jsonStr, Unmarshal data = .ok jsonStr →
      isString (mapIndex jsonStr "name") = false ∨
        isNumber (mapIndex jsonStr "price") = false →
      (AddData models db data).calls = [] ∧ (AddData models db data).db = db) ∧
    (∀ jsonStr name lit price, Unmarshal data = .ok jsonStr →
      mapIndex jsonStr "name" = some (JSON.string name) →
      mapIndex jsonStr "price" = some (JSON.number lit (some price)) →
      (AddData models db data).calls = [StoreCall.InsertItem ⟨0, name, price⟩]) ∧
    (∀ err, ParseInt itemIDStr = .error err →
      (UpdateData models db itemIDStr data).calls = [] ∧
        (UpdateData models db itemIDStr data).db = db) ∧
    (∀ err, Unmarshal data = .error err →
      (UpdateData models db itemIDStr data).calls = [] ∧
        (UpdateData models db itemIDStr data).db = db) ∧
    (∀ jsonStr, Unmarshal data = .ok jsonStr →
      isString (mapIndex jsonStr "name") = false ∨
        isNumber (mapIndex jsonStr "price") = false →
      (UpdateData models db itemIDStr data).calls = [] ∧
        (UpdateData models db itemIDStr data).db = db) ∧
    (∀ item_id jsonStr name lit price, ParseInt itemIDStr = .ok item_id →
      Unmarshal data = .ok jsonStr →
      mapIndex jsonStr "name" = some (JSON.string name) →
      mapIndex jsonStr "price" = some (JSON.number lit (some price)) →
      (UpdateData models db itemIDStr data).calls =
        [StoreCall.UpdateItem item_id ⟨item_id, name, price⟩]) := by
  have bad : ∀ jsonStr : GoMap,
      isString (mapIndex jsonStr "name") = false ∨
        isNumber (mapIndex jsonStr "price") = false →
      (∃ err, assertString (mapIndex jsonStr "name") = .error err) ∨
      (∃ name err, assertString (mapIndex jsonStr "name") = .ok name ∧
        assertFloat64 (mapIndex jsonStr "price") = .error err) := by
    intro jsonStr hbad
    rcases assertString_cases (mapIndex jsonStr "name") with ⟨s, hs, hok⟩ | herr
    · refine Or.inr ⟨s, _, hok, assertFloat64_of_not_isNumber _ ?_⟩
      rcases hbad with h | h
      · rw [hs] at h; simp [isString] at h
      · exact h
    · exact Or.inl ⟨_, herr⟩
  refine ⟨?_, ?_, ?_, ?_, ?_, ?_, ?_⟩
  · intro err h
    rw [AddData_unmarshal_error models db data err h]
    exact ⟨rfl, rfl⟩
  · intro jsonStr h hbad
    rcases bad jsonStr hbad with ⟨err, he⟩ | ⟨name, err, hs, he⟩
    · rw [AddData_name_error models db data jsonStr err h he]
      exact ⟨rfl, rfl⟩
    · rw [AddData_price_error models db data jsonStr name err h hs he]
      exact ⟨rfl, rfl⟩
  · intro jsonStr name lit price h hname hprice
    have hs : assertString (mapIndex jsonStr "name") = .ok name := by rw [hname]; rfl
    have hp : assertFloat64 (mapIndex jsonStr "price") = .ok price := by rw [hprice]; rfl
    rw [AddData_checked models db data jsonStr name price h hs hp]
  · intro err h
    rw [UpdateData_parse_error models db itemIDStr data err h]
    exact ⟨rfl, rfl⟩
  · intro err h
    cases hid : ParseInt itemIDStr with
    | error e =>
      rw [UpdateData_parse_error models db itemIDStr data e hid]
      exact ⟨rfl, rfl⟩
    | ok item_id =>
      rw [UpdateData_unmarshal_error models db itemIDStr item_id data err hid h]
      exact ⟨rfl, rfl⟩
  · intro jsonStr h hbad
    cases hid : ParseInt itemIDStr with
    | error e =>
      rw [UpdateData_parse_error models db itemIDStr data e hid]
      exact ⟨rfl, rfl⟩
    | ok item_id =>
      rcases bad jsonStr hbad with ⟨err, he⟩ | ⟨name, err, hs, he⟩
      · rw [UpdateData_name_error models db itemIDStr item_id data jsonStr err hid h he]
        exact ⟨rfl, rfl⟩
      · rw [UpdateData_price_error models db itemIDStr item_id data jsonStr name err hid h
          hs he]
        exact ⟨rfl, rfl⟩
  · intro item_id jsonStr name lit price hid h hname hprice
    have hs : assertString (mapIndex jsonStr "name") = .ok name := by rw [hname]; rfl
    have hp : assertFloat64 (mapIndex jsonStr "price") = .ok price := by rw [hprice]; rfl
    rw [UpdateData_checked models db itemIDStr item_id data jsonStr name price hid h hs hp]

/-- The requests `PUT /item` and `POST /item/12` with `{"name":"Pen","price":1.5}`
call their store operation once; with `{"name":"Pen","price":"1.5"}`, with a
body that is not JSON, or on `POST /item/abc`, the store is not called. -/
theorem store_called_after_validation_witness :
    (AddData listStore [] (Body.invalid "unexpected end of JSON input")).calls = [] ∧
    (AddData listStore [] quotedPriceBody).calls = [] ∧
    (AddData listStore [] penBody).calls = [StoreCall.InsertItem ⟨0, "Pen", 3 / 2⟩] ∧
    (UpdateData listStore [] "abc" penBody).calls = [] ∧
    (UpdateData listStore [] "12" (Body.invalid "unexpected end of JSON input")).calls = [] ∧
    (UpdateData listStore [] "12" quotedPriceBody).calls = [] ∧
    (UpdateData listStore [] "12" penBody).calls =
      [StoreCall.UpdateItem 12 ⟨12, "Pen", 3 / 2⟩] :=
  ⟨((store_called_after_validation listStore [] "12"
      (Body.invalid "unexpected end of JSON input")).1 _ rfl).1,
    ((store_called_after_validation listStore [] "12" quotedPriceBody).2.1 _ rfl
      (Or.inr rfl)).1,
    (store_called_after_validation listStore [] "12" penBody).2.2.1 _ "Pen" "1.5" (3 / 2)
      rfl rfl rfl,
    ((store_called_after_validation listStore [] "abc" penBody).2.2.2.1 _ rfl).1,
    ((store_called_after_validation listStore [] "12"
      (Body.invalid "unexpected end of JSON input")).2.2.2.2.1 _ rfl).1,
    ((store_called_after_validation listStore [] "12" quotedPriceBody).2.2.2.2.2.1 _ rfl
      (Or.inr rfl)).1,
    (store_called_after_validation listStore [] "12" penBody).2.2.2.2.2.2 12 _ "Pen" "1.5"
      (3 / 2) rfl rfl rfl rfl⟩

end Claims

end MiHttpServer
